import Mathlib

/-!
Shallow embedding of the DX12 graphics backend's frame-lifecycle layer
(src/engine/graphics/src/dx12/graphics_dx12.cpp): the transient scratch
allocator, the per-frame deferred destruction queue, the frame
synchronization trace, the pipeline cache, the program resource-binding
builder, and the checked-HRESULT initialization flow.

The numeric constants BLOCK_STEP_SIZE and MAX_BLOCK_SIZE come from a header
that is not part of the sources (graphics_dx12_private.h); following the
spec's description ("size classes are multiples of a fixed step up to a
maximum block size") they are kept as parameters in a configuration record.
-/

namespace DX12

/-- Configuration constants of the scratch buffer, standing for the
BLOCK_STEP_SIZE and MAX_BLOCK_SIZE macros from the (absent) private header. -/
structure ScratchConfig where
  blockStepSize : Nat
  maxBlockSize : Nat
deriving DecidableEq

/-- One entry of DX12ScratchBuffer::m_MemoryPools: a fixed block size, a
descriptor cursor and a byte (memory) cursor. -/
structure MemoryPool where
  blockSize : Nat
  descriptorCursor : Nat
  memoryCursor : Nat
deriving DecidableEq

/-- DX12ScratchBuffer: the per-frame transient allocator. -/
structure ScratchBuffer where
  frameIndex : Nat
  memoryPools : List MemoryPool
deriving DecidableEq

/-- DX12ScratchBuffer::Initialize: MAX_BLOCK_SIZE / BLOCK_STEP_SIZE pools,
pool i having block size (i+1) * BLOCK_STEP_SIZE and zeroed cursors. -/
def scratchInit (cfg : ScratchConfig) (frameIndex : Nat) : ScratchBuffer :=
  { frameIndex := frameIndex
    memoryPools :=
      (List.range (cfg.maxBlockSize / cfg.blockStepSize)).map fun i =>
        { blockSize := (i + 1) * cfg.blockStepSize
          descriptorCursor := 0
          memoryCursor := 0 } }

/-- A memory region identified by the pool heap it lives in and a byte
offset into that heap.  The CPU mapped heap and the GPU virtual-address
range of pool p describe the same underlying upload heap, so two regions
coincide exactly when the pool index and offset agree. -/
structure Region where
  pool : Nat
  offset : Nat
deriving DecidableEq

/-- The observable outcome of DX12ScratchBuffer::AllocateConstantBuffer: the
region behind the returned CPU-writable pointer, the region the constant
buffer view bound on the command list actually points at, and the root
parameter index it was bound to. -/
structure ConstantAlloc where
  cpuRegion : Region
  gpuBoundRegion : Region
  rootParameterIndex : Nat
deriving DecidableEq

/-- DX12ScratchBuffer::AllocateConstantBuffer.  The assert on
non_aligned_byte_size < MAX_BLOCK_SIZE is modelled by returning none when it
fails.  pool_index = size / BLOCK_STEP_SIZE; the CPU pointer is the selected
pool's mapped base plus its current byte cursor; the bound GPU view is pool
0's GPU base plus that same cursor value; the selected pool's byte cursor
advances by its fixed block size and its descriptor cursor by one. -/
def allocateConstantBuffer (cfg : ScratchConfig) (bufferIndex : Nat)
    (sb : ScratchBuffer) (size : Nat) : Option (ScratchBuffer × ConstantAlloc) :=
  if size < cfg.maxBlockSize then
    let poolIndex := size / cfg.blockStepSize
    let pool := sb.memoryPools.getD poolIndex ⟨0, 0, 0⟩
    let cursor := pool.memoryCursor
    some
      ({ sb with
          memoryPools := sb.memoryPools.set poolIndex
            { blockSize := pool.blockSize
              descriptorCursor := pool.descriptorCursor + 1
              memoryCursor := cursor + pool.blockSize } },
        { cpuRegion := ⟨poolIndex, cursor⟩
          gpuBoundRegion := ⟨0, cursor⟩
          rootParameterIndex := bufferIndex })
  else
    none

/-- The observable outcome of DX12ScratchBuffer::AllocateTexture2D: which
pool's descriptor heap received the shader resource view, at which slot, and
the root parameter indices the texture and sampler tables were bound to. -/
structure TextureBind where
  srvHeapPool : Nat
  srvHeapSlot : Nat
  textureRootParameterIndex : Nat
  samplerRootParameterIndex : Nat
deriving DecidableEq

/-- DX12ScratchBuffer::AllocateTexture2D: always writes the shader resource
view into pool 0's descriptor heap at pool 0's descriptor cursor and bumps
that cursor; there is no size-class selection at all. -/
def allocateTexture2D (sb : ScratchBuffer) (textureIndex samplerIndex : Nat) :
    ScratchBuffer × TextureBind :=
  let pool0 := sb.memoryPools.getD 0 ⟨0, 0, 0⟩
  ({ sb with
      memoryPools := sb.memoryPools.set 0
        { pool0 with descriptorCursor := pool0.descriptorCursor + 1 } },
    { srvHeapPool := 0
      srvHeapSlot := pool0.descriptorCursor
      textureRootParameterIndex := textureIndex
      samplerRootParameterIndex := samplerIndex })

/-- DX12ScratchBuffer::Reset: zeroes every pool's descriptor and byte
cursors, touching nothing else. -/
def scratchReset (sb : ScratchBuffer) : ScratchBuffer :=
  { sb with
      memoryPools := sb.memoryPools.map fun p =>
        { p with descriptorCursor := 0, memoryCursor := 0 } }

/-- An allocator action within one frame: a constant-buffer allocation (the
size request and root index) or a texture binding. -/
inductive ScratchAction where
  | constAlloc (bufferIndex size : Nat)
  | texAlloc (textureIndex samplerIndex : Nat)
deriving DecidableEq

/-- Apply one allocator action to the scratch buffer state. -/
def scratchStep (cfg : ScratchConfig) (sb : ScratchBuffer) :
    ScratchAction → ScratchBuffer
  | .constAlloc b s =>
    match allocateConstantBuffer cfg b sb s with
    | some (sb2, _) => sb2
    | none => sb
  | .texAlloc t s => (allocateTexture2D sb t s).1

/-- Run a sequence of allocator actions. -/
def scratchRun (cfg : ScratchConfig) (sb : ScratchBuffer)
    (acts : List ScratchAction) : ScratchBuffer :=
  acts.foldl (scratchStep cfg) sb

/-- Modelled from the spec: the index of the pool whose fixed block size is
the smallest size class fitting the request, size classes being the
successive multiples (i+1) * step of the fixed step. -/
def smallestFittingPool (cfg : ScratchConfig) (size : Nat) : Nat :=
  (size - 1) / cfg.blockStepSize

/-! Frame synchronization: SyncronizeFrame, DX12BeginFrame and DX12Flip as
straight-line event traces over one frame slot. -/

/-- The externally visible events of a frame's begin/flip sequence. -/
inductive FrameEvent where
  | waitFence (slot fenceValue : Nat)
  | resetCommandAllocator (slot : Nat)
  | flushDestroyQueue (slot : Nat)
  | enterRecordMode (slot : Nat)
  | resetScratch (slot : Nat)
  | cmdSetDescriptorHeaps (slot : Nat)
  | cmdBeginRenderPass (slot : Nat)
  | executeCommandLists (slot : Nat)
  | signalFence (slot fenceValue : Nat)
  | present
deriving DecidableEq

/-- Position of the first occurrence of an event in a trace (length of the
trace when absent). -/
def eventPos : List FrameEvent → FrameEvent → Nat
  | [], _ => 0
  | e :: rest, target => if e = target then 0 else eventPos rest target + 1

/-- SyncronizeFrame on one slot: when the fence's completed value has not
reached the slot's recorded fence value, wait for exactly that value; then
increment the slot's fence value for the next frame.  Returns the emitted
events and the new recorded fence value. -/
def syncronizeFrame (completed fenceValue slot : Nat) :
    List FrameEvent × Nat :=
  ((if completed < fenceValue then [FrameEvent.waitFence slot fenceValue] else []),
    fenceValue + 1)

/-- DX12BeginFrame on one slot: synchronize, reset the command allocator,
flush the slot's deferred destruction queue, re-open the command list for
recording, reset the slot's scratch buffer, then record the descriptor-heap
binding and begin the render pass. -/
def dx12BeginFrame (completed fenceValue slot : Nat) :
    List FrameEvent × Nat :=
  let s := syncronizeFrame completed fenceValue slot
  (s.1 ++
    [FrameEvent.resetCommandAllocator slot,
     FrameEvent.flushDestroyQueue slot,
     FrameEvent.enterRecordMode slot,
     FrameEvent.resetScratch slot,
     FrameEvent.cmdSetDescriptorHeaps slot,
     FrameEvent.cmdBeginRenderPass slot],
    s.2)

/-- DX12Flip on one slot: execute the recorded commands, signal the slot's
fence with the slot's current recorded fence value, and present. -/
def dx12Flip (slot fenceValue : Nat) : List FrameEvent :=
  [FrameEvent.executeCommandLists slot,
   FrameEvent.signalFence slot fenceValue,
   FrameEvent.present]

/-! Deferred destruction: DestroyResourceDeferred and
FlushResourcesToDestroy.  A GPU handle is a Nat; the logical resource keeps
an optional handle (none models the null m_Resource pointer) and a destroyed
flag. -/

/-- A logical GPU resource: the underlying handle (none when the m_Resource
pointer is null) and the m_Destroyed mark. -/
structure GpuResource where
  resource : Option Nat
  destroyed : Bool
deriving DecidableEq

/-- DestroyResourceDeferred: given the slot's pending-destruction list and a
possibly-null logical resource, push the underlying handle when it exists,
mark the logical resource destroyed and null its handle; a null resource
pointer or a null handle changes nothing. -/
def destroyResourceDeferred (queue : List Nat) (r : Option GpuResource) :
    List Nat × Option GpuResource :=
  match r with
  | none => (queue, none)
  | some res =>
    match res.resource with
    | none => (queue, some res)
    | some h => (queue ++ [h], some { resource := none, destroyed := true })

/-- FlushResourcesToDestroy: release every queued handle in order and empty
the list.  Returns the released handles and the new (empty) list. -/
def flushResourcesToDestroy (queue : List Nat) : List Nat × List Nat :=
  (queue, [])

/-! Pipeline cache: GetOrCreatePipeline and CreatePipeline.  The 64-bit
content hash is modelled injectively as the tuple of the values actually fed
to the hash stream: the fixed-function pipeline state, the render target id
and the program's root signature.  The vertex declaration's pipeline hash
and step function are NOT hashed (those hash updates are commented out in
the source). -/

/-- One stream of a vertex declaration as consulted by the pipeline code. -/
structure Stream where
  nameHash : Nat
  location : Nat
  ty : Nat
  offset : Nat
  size : Nat
  normalize : Bool
deriving DecidableEq

/-- The context's per-binding vertex declaration: stride, step function, the
declaration's own pipeline hash and the matched streams. -/
structure VertexDecl where
  stride : Nat
  stepFunction : Nat
  pipelineHash : Nat
  streams : List Stream
deriving DecidableEq

/-- The pieces of DX12ShaderProgram read when building a pipeline. -/
structure ProgramId where
  rootSignature : Nat
  vsBytecode : Nat
  fsBytecode : Nat
deriving DecidableEq

/-- The pieces of DX12RenderTarget read by the pipeline code. -/
structure RenderTargetId where
  id : Nat
  format : Nat
  sampleDesc : Nat
deriving DecidableEq

/-- One D3D12_INPUT_ELEMENT_DESC as filled by CreatePipeline: semantic index
from the stream location, the format inputs (type, size, normalize), the
input slot and the aligned byte offset.  The stream's stride and the
declaration's step function are not consulted. -/
structure InputElement where
  semanticIndex : Nat
  ty : Nat
  size : Nat
  normalize : Bool
  inputSlot : Nat
  alignedByteOffset : Nat
deriving DecidableEq

/-- The input layout CreatePipeline builds from the bound vertex
declarations: every stream of every bound declaration, in order. -/
def buildInputLayout (decls : List (Option VertexDecl)) : List InputElement :=
  (decls.enum.map fun p =>
    match p.2 with
    | none => []
    | some d =>
      d.streams.map fun s =>
        { semanticIndex := s.location
          ty := s.ty
          size := s.size
          normalize := s.normalize
          inputSlot := p.1
          alignedByteOffset := s.offset }).flatten

/-- A compiled pipeline object: exactly the fields of the pipeline state
descriptor that CreatePipeline fills from its inputs. -/
structure Pipeline where
  inputLayout : List InputElement
  rootSignature : Nat
  vsBytecode : Nat
  fsBytecode : Nat
  rtFormat : Nat
  rtSampleDesc : Nat
deriving DecidableEq

/-- The slice of DX12Context consulted by GetOrCreatePipeline. -/
structure PipelineCacheContext where
  pipelineState : Nat
  currentProgram : ProgramId
  currentVertexDeclarations : List (Option VertexDecl)
  pipelineCache : List ((Nat × Nat × Nat) × Pipeline)
deriving DecidableEq

/-- The content hash of GetOrCreatePipeline, modelled injectively as the
tuple of hashed inputs: pipeline state, render target id, root signature.
The commented-out vertex declaration hash/step-function updates are absent,
exactly as in the source. -/
def pipelineHashInputs (ctx : PipelineCacheContext) (rt : RenderTargetId) :
    Nat × Nat × Nat :=
  (ctx.pipelineState, rt.id, ctx.currentProgram.rootSignature)

/-- CreatePipeline: synthesize the compiled pipeline from the current
program, the bound vertex declarations and the render target. -/
def createPipeline (ctx : PipelineCacheContext) (rt : RenderTargetId) :
    Pipeline :=
  { inputLayout := buildInputLayout ctx.currentVertexDeclarations
    rootSignature := ctx.currentProgram.rootSignature
    vsBytecode := ctx.currentProgram.vsBytecode
    fsBytecode := ctx.currentProgram.fsBytecode
    rtFormat := rt.format
    rtSampleDesc := rt.sampleDesc }

/-- Lookup in the pipeline cache (dmHashTable::Get). -/
def cacheGet (cache : List ((Nat × Nat × Nat) × Pipeline))
    (key : Nat × Nat × Nat) : Option Pipeline :=
  match cache with
  | [] => none
  | (k, v) :: rest => if k = key then some v else cacheGet rest key

/-- GetOrCreatePipeline: hash, look up, and on a miss synthesize and insert
(the capacity growth of the hash table is not observable here).  The third
component records whether a new pipeline was synthesized by this call. -/
def getOrCreatePipeline (ctx : PipelineCacheContext) (rt : RenderTargetId) :
    PipelineCacheContext × Pipeline × Bool :=
  let h := pipelineHashInputs ctx rt
  match cacheGet ctx.pipelineCache h with
  | some p => (ctx, p, false)
  | none =>
    let p := createPipeline ctx rt
    ({ ctx with pipelineCache := ctx.pipelineCache ++ [(h, p)] }, p, true)

/-! Program resource bindings: FillProgramResourceBindings and
CreateProgramResourceBindings. -/

/-- The binding family of a reflected shader resource. -/
inductive BindingFamily where
  | texture
  | storageBuffer
  | uniformBuffer
  | generic
deriving DecidableEq

/-- One reflected shader resource (ShaderResourceBinding). -/
structure ShaderResource where
  nameHash : Nat
  set : Nat
  binding : Nat
  family : BindingFamily
  blockSize : Nat
  useTypeIndex : Bool
  typeIndex : Nat
deriving DecidableEq

/-- One entry of the shared type-info table; only the member count is read
by the binding builder. -/
structure TypeInfo where
  memberCount : Nat
deriving DecidableEq

/-- One entry of the program's merged binding table
(ProgramResourceBinding). -/
structure ProgramBinding where
  res : Option ShaderResource
  typeInfos : List TypeInfo
  dataOffset : Nat
  dynamicOffsetIndex : Nat
  textureUnit : Nat
  storageBufferUnit : Nat
  stageFlags : Nat
deriving DecidableEq

/-- The zero-initialized binding-table entry. -/
def emptyProgramBinding : ProgramBinding :=
  { res := none, typeInfos := [], dataOffset := 0, dynamicOffsetIndex := 0
    textureUnit := 0, storageBufferUnit := 0, stageFlags := 0 }

/-- The running counters of ProgramResourceBindingsInfo. -/
structure BindingsInfo where
  uniformBufferCount : Nat
  storageBufferCount : Nat
  textureCount : Nat
  totalUniformCount : Nat
  uniformDataSize : Nat
  uniformDataSizeAligned : Nat
  maxSet : Nat
  maxBinding : Nat
deriving DecidableEq

/-- The zero-initialized counters. -/
def emptyBindingsInfo : BindingsInfo :=
  { uniformBufferCount := 0, storageBufferCount := 0, textureCount := 0
    totalUniformCount := 0, uniformDataSize := 0, uniformDataSizeAligned := 0
    maxSet := 0, maxBinding := 0 }

/-- The fill state threaded through FillProgramResourceBindings: the taken
table, the program's merged binding table keyed by (set, binding), and the
counters. -/
structure FillState where
  taken : List (Nat × Nat)
  bindings : List ((Nat × Nat) × ProgramBinding)
  info : BindingsInfo
deriving DecidableEq

/-- The initial fill state (all-zero taken table and program). -/
def emptyFillState : FillState :=
  { taken := [], bindings := [], info := emptyBindingsInfo }

/-- Read the merged table at a (set, binding) key, defaulting to the
zero-initialized entry. -/
def getBinding (l : List ((Nat × Nat) × ProgramBinding)) (k : Nat × Nat) :
    ProgramBinding :=
  match l with
  | [] => emptyProgramBinding
  | (k2, v) :: rest => if k2 = k then v else getBinding rest k

/-- Write the merged table at a (set, binding) key. -/
def setBinding (l : List ((Nat × Nat) × ProgramBinding)) (k : Nat × Nat)
    (v : ProgramBinding) : List ((Nat × Nat) × ProgramBinding) :=
  match l with
  | [] => [(k, v)]
  | (k2, v2) :: rest =>
    if k2 = k then (k2, v) :: rest else (k2, v2) :: setBinding rest k v

/-- DM_ALIGN: round x up to a multiple of a. -/
def alignUp (x a : Nat) : Nat := ((x + a - 1) / a) * a

/-- The body of FillProgramResourceBindings for one reflected resource: if
the (set, binding) slot is already taken nothing at all happens; otherwise
the slot is claimed, the entry is filled from this resource, the stage flag
is or-ed in, and the per-family counters advance. -/
def fillResourceBinding (typeInfos : List TypeInfo) (uboAlignment : Nat)
    (stageFlag : Nat) (st : FillState) (res : ShaderResource) : FillState :=
  if (res.set, res.binding) ∈ st.taken then st
  else
    let prb0 := getBinding st.bindings (res.set, res.binding)
    let prb1 := { prb0 with
      res := some res
      typeInfos := typeInfos
      stageFlags := prb0.stageFlags ||| stageFlag }
    let step :=
      match res.family with
      | .texture =>
        ({ prb1 with textureUnit := st.info.textureCount },
          { st.info with
              textureCount := st.info.textureCount + 1
              totalUniformCount := st.info.totalUniformCount + 1 })
      | .storageBuffer =>
        ({ prb1 with storageBufferUnit := st.info.storageBufferCount },
          { st.info with
              storageBufferCount := st.info.storageBufferCount + 1
              totalUniformCount := st.info.totalUniformCount + 1 })
      | .uniformBuffer =>
        let ti := typeInfos.getD res.typeIndex ⟨0⟩
        ({ prb1 with
            dataOffset := st.info.uniformDataSize
            dynamicOffsetIndex := st.info.uniformBufferCount },
          { st.info with
              uniformBufferCount := st.info.uniformBufferCount + 1
              uniformDataSize := st.info.uniformDataSize + res.blockSize
              uniformDataSizeAligned :=
                st.info.uniformDataSizeAligned + alignUp res.blockSize uboAlignment
              totalUniformCount := st.info.totalUniformCount + ti.memberCount })
      | .generic => (prb1, st.info)
    let info2 := { step.2 with
      maxSet := max step.2.maxSet (res.set + 1)
      maxBinding := max step.2.maxBinding (res.binding + 1) }
    { taken := (res.set, res.binding) :: st.taken
      bindings := setBinding st.bindings (res.set, res.binding) step.1
      info := info2 }

/-- FillProgramResourceBindings over one resource list. -/
def fillResourceList (typeInfos : List TypeInfo) (uboAlignment : Nat)
    (stageFlag : Nat) (st : FillState) (resources : List ShaderResource) :
    FillState :=
  resources.foldl (fillResourceBinding typeInfos uboAlignment stageFlag) st

/-- The reflection metadata of one compiled shader stage. -/
structure ShaderModule where
  uniformBuffers : List ShaderResource
  storageBuffers : List ShaderResource
  textures : List ShaderResource
  typeInfos : List TypeInfo
deriving DecidableEq

/-- The per-module overload of FillProgramResourceBindings: uniform buffers,
then storage buffers, then textures; a null module is skipped. -/
def fillModule (uboAlignment : Nat) (stageFlag : Nat) (st : FillState)
    (m : Option ShaderModule) : FillState :=
  match m with
  | none => st
  | some mod =>
    let st1 := fillResourceList mod.typeInfos uboAlignment stageFlag st mod.uniformBuffers
    let st2 := fillResourceList mod.typeInfos uboAlignment stageFlag st1 mod.storageBuffers
    fillResourceList mod.typeInfos uboAlignment stageFlag st2 mod.textures

/-- SHADER_STAGE_FLAG_VERTEX. -/
def stageFlagVertex : Nat := 1

/-- SHADER_STAGE_FLAG_FRAGMENT. -/
def stageFlagFragment : Nat := 2

/-- SHADER_STAGE_FLAG_COMPUTE. -/
def stageFlagCompute : Nat := 4

/-- CreateProgramResourceBindings: merge the vertex module, then the
fragment module, then the compute module into one table and counter set. -/
def createProgramResourceBindings (uboAlignment : Nat)
    (vertexModule fragmentModule computeModule : Option ShaderModule) :
    FillState :=
  let st1 := fillModule uboAlignment stageFlagVertex emptyFillState vertexModule
  let st2 := fillModule uboAlignment stageFlagFragment st1 fragmentModule
  fillModule uboAlignment stageFlagCompute st2 computeModule

/-! Initialization error handling: CHECK_HR_ERROR and the DX12Initialize
call sequence. -/

/-- S_OK. -/
def hrOk : Int := 0

/-- The outcome of one CHECK_HR_ERROR expansion. -/
inductive HrCheck where
  | passed
  | loggedAssert (file : String) (line : Nat) (code : Int)
deriving DecidableEq

/-- CHECK_HR_ERROR: in verified-calls mode a non-S_OK result is logged with
file and line and asserts; otherwise execution continues. -/
def checkHrError (verify : Bool) (file : String) (line : Nat) (hr : Int) :
    HrCheck :=
  if verify = true ∧ hr ≠ hrOk then .loggedAssert file line hr else .passed

/-- The result of the modelled initialization sequence. -/
inductive InitResult where
  | aborted (file : String) (line : Nat) (code : Int)
  | returnedFalse
  | returnedTrue
deriving DecidableEq

/-- One device/resource-creation call of the initialization sequence.  Most
calls capture their HRESULT and feed it to CHECK_HR_ERROR (checked); but the
swap-chain creation at line 367 discards its HRESULT with no check at all,
and the factory helper (lines 137-141) returns null on failure without any
log or assertion — those results never reach CHECK_HR_ERROR (unchecked). -/
inductive DeviceCall where
  | checked (file : String) (line : Nat) (hr : Int)
  | unchecked (line : Nat) (hr : Int)
deriving DecidableEq

/-- Whether a call can stop the sequence: a checked call must have returned
S_OK; an unchecked call's result is never inspected, so it always passes. -/
def checkedOk : DeviceCall → Bool
  | .checked _ _ hr => hr == hrOk
  | .unchecked _ _ => true

/-- Walk the initialization call sequence in order: each checked call's
HRESULT goes through CHECK_HR_ERROR and the first logged assertion stops the
sequence; an unchecked call contributes nothing regardless of its result. -/
def runInitCalls (verify : Bool) : List DeviceCall → Option (String × Nat × Int)
  | [] => none
  | .checked f l hr :: rest =>
    match checkHrError verify f l hr with
    | .loggedAssert f2 l2 c => some (f2, l2, c)
    | .passed => runInitCalls verify rest
  | .unchecked _ _ :: rest => runInitCalls verify rest

/-- DX12Initialize as a function of the results of its device-call sequence:
in verified-calls mode the first failing checked call aborts via the logged
assertion; failures of unchecked calls (the discarded swap-chain HRESULT at
line 367, the silently null factory) never stop initialization; only the
fence-event creation (not an HRESULT device call) returns false up the
stack; otherwise initialization returns true. -/
def dx12InitOutcome (verify : Bool) (deviceCalls : List DeviceCall)
    (fenceEventOk : Bool) : InitResult :=
  match runInitCalls verify deviceCalls with
  | some (f, l, c) => .aborted f l c
  | none => if fenceEventOk then .returnedTrue else .returnedFalse

/-- The device-call sequence of DX12Initialize (lines 322-445) with every
checked call succeeding but the swap-chain creation — whose HRESULT line 367
discards — failing: debug interface, factory (helper, unchecked), device,
command queue, swap chain (unchecked, failing), sampler heap, render-target
view heap, back-buffer fetch, command allocator, frame fence, command
list. -/
def dx12InitCallsSwapChainFail : List DeviceCall :=
  [DeviceCall.checked "graphics_dx12.cpp" 333 0,
   DeviceCall.unchecked 338 0,
   DeviceCall.checked "graphics_dx12.cpp" 342 0,
   DeviceCall.checked "graphics_dx12.cpp" 346 0,
   DeviceCall.unchecked 367 1,
   DeviceCall.checked "graphics_dx12.cpp" 378 0,
   DeviceCall.checked "graphics_dx12.cpp" 387 0,
   DeviceCall.checked "graphics_dx12.cpp" 400 0,
   DeviceCall.checked "graphics_dx12.cpp" 409 0,
   DeviceCall.checked "graphics_dx12.cpp" 413 0,
   DeviceCall.checked "graphics_dx12.cpp" 430 0]

end DX12

open DX12

/-! Helper lemmas shared across the claims. -/

/-- When a list of pools maps to the canonical block sizes, the pool read at
an in-range index has block size (i + 1) * step. -/
theorem blockSize_getD_of_map_eq {l : List MemoryPool} {n step : Nat}
    (h : l.map MemoryPool.blockSize = (List.range n).map fun i => (i + 1) * step)
    {i : Nat} (hi : i < n) :
    (l.getD i ⟨0, 0, 0⟩).blockSize = (i + 1) * step := by
  have hlen : l.length = n := by simpa using congrArg List.length h
  have hi2 : i < l.length := by omega
  have e1 : l.getD i ⟨0, 0, 0⟩ = l[i] := by
    simp [List.getD_eq_getElem?_getD, List.getElem?_eq_getElem hi2]
  have hi3 : i < (l.map MemoryPool.blockSize).length := by
    simpa using hi2
  have e2 : (l.map MemoryPool.blockSize)[i] = l[i].blockSize := by
    simp
  rw [e1, ← e2]
  simp only [h]
  simp

/-- A request never exceeds the block size of the pool at index size / step. -/
theorem size_le_succ_div_mul {size step : Nat} (hstep : 0 < step) :
    size ≤ (size / step + 1) * step := by
  have hdm := Nat.div_add_mod size step
  have hmod : size % step < step := Nat.mod_lt size hstep
  calc size = step * (size / step) + size % step := hdm.symm
    _ ≤ step * (size / step) + step := by omega
    _ = (size / step + 1) * step := by ring

/-- For sizes that are not positive exact multiples of the step, floor
division selects the smallest fitting size class. -/
theorem div_eq_pred_div_of_not_dvd {size step : Nat} (hstep : 0 < step)
    (hnd : ¬(0 < size ∧ step ∣ size)) : size / step = (size - 1) / step := by
  rcases Nat.eq_zero_or_pos size with h0 | hpos
  · subst h0; simp
  · have hndvd : ¬ step ∣ size := fun hd => hnd ⟨hpos, hd⟩
    have hmod : size % step ≠ 0 := fun hm => hndvd (Nat.dvd_of_mod_eq_zero hm)
    have hdm := Nat.div_add_mod size step
    have h1 : size - 1 = step * (size / step) + (size % step - 1) := by omega
    rw [h1, Nat.mul_add_div hstep]
    have hlt : (size % step - 1) / step = 0 :=
      Nat.div_eq_of_lt (by have := Nat.mod_lt size hstep; omega)
    omega

/-- For positive exact multiples of the step, floor division selects the
class one above the smallest fitting one. -/
theorem div_eq_pred_div_succ_of_dvd {size step : Nat} (hstep : 0 < step)
    (hpos : 0 < size) (hdvd : step ∣ size) :
    size / step = (size - 1) / step + 1 := by
  obtain ⟨q, hq⟩ := hdvd
  have hq1 : 0 < q := by
    rcases Nat.eq_zero_or_pos q with h | h
    · subst h; simp at hq; omega
    · exact h
  obtain ⟨q0, rfl⟩ : ∃ q0, q = q0 + 1 := ⟨q - 1, by omega⟩
  subst hq
  have e0 : step * (q0 + 1) = step * q0 + step := by ring
  have e1 : step * q0 + step - 1 = step * q0 + (step - 1) := by omega
  rw [e0, e1, Nat.mul_add_div hstep, Nat.mul_add_div hstep,
    Nat.div_self hstep, Nat.div_eq_of_lt (by omega)]

/-- Setting a pool without changing its block size preserves the block-size
profile of the pool list. -/
theorem map_blockSize_set (l : List MemoryPool) (i : Nat) (p : MemoryPool)
    (h : p.blockSize = (l.getD i ⟨0, 0, 0⟩).blockSize) :
    (l.set i p).map MemoryPool.blockSize = l.map MemoryPool.blockSize := by
  induction l generalizing i with
  | nil => simp
  | cons x xs ih =>
    cases i with
    | zero =>
      simp only [List.getD_cons_zero] at h
      simp [List.set, h]
    | succ n =>
      simp only [List.getD_cons_succ] at h
      simp [List.set, ih n h]

/-- One allocator action preserves the block sizes and the frame index. -/
theorem scratchStep_preserves (cfg : ScratchConfig) (sb : ScratchBuffer)
    (a : ScratchAction) :
    (scratchStep cfg sb a).memoryPools.map MemoryPool.blockSize =
      sb.memoryPools.map MemoryPool.blockSize ∧
    (scratchStep cfg sb a).frameIndex = sb.frameIndex := by
  cases a with
  | constAlloc b s =>
    by_cases hs : s < cfg.maxBlockSize
    · simp only [scratchStep, allocateConstantBuffer, if_pos hs]
      exact ⟨map_blockSize_set _ _ _ rfl, trivial⟩
    · simp [scratchStep, allocateConstantBuffer, hs]
  | texAlloc t s =>
    simp only [scratchStep, allocateTexture2D]
    exact ⟨map_blockSize_set _ _ _ rfl, trivial⟩

/-- A whole action sequence preserves the block sizes and the frame index. -/
theorem scratchRun_preserves (cfg : ScratchConfig) (acts : List ScratchAction)
    (sb : ScratchBuffer) :
    (scratchRun cfg sb acts).memoryPools.map MemoryPool.blockSize =
      sb.memoryPools.map MemoryPool.blockSize ∧
    (scratchRun cfg sb acts).frameIndex = sb.frameIndex := by
  induction acts generalizing sb with
  | nil => exact ⟨rfl, rfl⟩
  | cons a rest ih =>
    have h1 := scratchStep_preserves cfg sb a
    have h2 := ih (scratchStep cfg sb a)
    simp only [scratchRun] at h2 ⊢
    simp [List.foldl_cons, h2.1, h2.2, h1.1, h1.2]

/-- Resetting any scratch buffer zeroes all its pool cursors. -/
theorem scratchReset_cursors (sb : ScratchBuffer) :
    ∀ p ∈ (scratchReset sb).memoryPools, p.memoryCursor = 0 ∧ p.descriptorCursor = 0 := by
  intro p hp
  simp only [scratchReset, List.mem_map] at hp
  obtain ⟨q, _, rfl⟩ := hp
  exact ⟨rfl, rfl⟩

/-- Resetting a scratch buffer reached from a fresh one by any action
sequence gives back the fresh scratch buffer. -/
theorem scratchReset_run_eq_init (cfg : ScratchConfig) (fi : Nat)
    (acts : List ScratchAction) :
    scratchReset (scratchRun cfg (scratchInit cfg fi) acts) = scratchInit cfg fi := by
  have hrun := scratchRun_preserves cfg acts (scratchInit cfg fi)
  have hframe : (scratchRun cfg (scratchInit cfg fi) acts).frameIndex = fi := by
    rw [hrun.2]; rfl
  have hinitmap : (scratchInit cfg fi).memoryPools.map MemoryPool.blockSize =
      (List.range (cfg.maxBlockSize / cfg.blockStepSize)).map
        fun i => (i + 1) * cfg.blockStepSize := by
    simp [scratchInit, List.map_map, Function.comp]
  have hpools :
      (scratchRun cfg (scratchInit cfg fi) acts).memoryPools.map
        (fun p => { p with descriptorCursor := 0, memoryCursor := 0 }) =
      (scratchInit cfg fi).memoryPools := by
    have e1 : ∀ l : List MemoryPool,
        l.map (fun p => ({ p with descriptorCursor := 0, memoryCursor := 0 } : MemoryPool)) =
        (l.map MemoryPool.blockSize).map (fun b => (⟨b, 0, 0⟩ : MemoryPool)) := by
      intro l; rw [List.map_map]; rfl
    rw [e1, hrun.1, hinitmap]
    simp [scratchInit, List.map_map, Function.comp]
  calc scratchReset (scratchRun cfg (scratchInit cfg fi) acts)
      = ⟨(scratchRun cfg (scratchInit cfg fi) acts).frameIndex,
          (scratchRun cfg (scratchInit cfg fi) acts).memoryPools.map
            (fun p => { p with descriptorCursor := 0, memoryCursor := 0 })⟩ := rfl
    _ = ⟨fi, (scratchInit cfg fi).memoryPools⟩ := by rw [hframe, hpools]
    _ = scratchInit cfg fi := rfl

/-- C6: the guarding assertion of AllocateConstantBuffer admits exactly the
sizes strictly below the maximum block size: a request of maximum block size
minus one passes and succeeds, while a request at or above the maximum block
size fails the precondition check. -/
theorem C6_allocation_precondition (cfg : ScratchConfig) (sb : ScratchBuffer)
    (bufferIndex : Nat) (hmax : 0 < cfg.maxBlockSize) :
    (allocateConstantBuffer cfg bufferIndex sb (cfg.maxBlockSize - 1)).isSome = true ∧
    ∀ size, cfg.maxBlockSize ≤ size →
      allocateConstantBuffer cfg bufferIndex sb size = none := by
  constructor
  · have hlt : cfg.maxBlockSize - 1 < cfg.maxBlockSize := by omega
    simp [allocateConstantBuffer, hlt]
  · intro size hs
    simp [allocateConstantBuffer, Nat.not_lt.mpr hs]

/-- Witness for C6 at a concrete configuration. -/
theorem C6_allocation_precondition_witness :
    (0 : Nat) < 1024 ∧
    ((allocateConstantBuffer ⟨256, 1024⟩ 0 (scratchInit ⟨256, 1024⟩ 0) (1024 - 1)).isSome = true ∧
      ∀ size, 1024 ≤ size →
        allocateConstantBuffer ⟨256, 1024⟩ 0 (scratchInit ⟨256, 1024⟩ 0) size = none) :=
  ⟨by decide, C6_allocation_precondition ⟨256, 1024⟩ (scratchInit ⟨256, 1024⟩ 0) 0 (by decide)⟩

/-- C10: for every admitted constant-buffer allocation, the bound GPU view
lies in pool 0's heap at the selected pool's byte cursor, while the CPU
pointer lies in the selected pool's heap at that same cursor, so the two
regions coincide exactly when the request falls in pool 0; and every texture
binding writes its shader resource view into pool 0's descriptor heap
regardless of size class. -/
theorem C10_gpu_cpu_pool_mismatch (cfg : ScratchConfig) (sb : ScratchBuffer)
    (bufferIndex size : Nat) (hstep : 0 < cfg.blockStepSize)
    (hsize : size < cfg.maxBlockSize) :
    (∃ sb2 alloc, allocateConstantBuffer cfg bufferIndex sb size = some (sb2, alloc) ∧
      alloc.gpuBoundRegion.pool = 0 ∧
      alloc.cpuRegion.pool = size / cfg.blockStepSize ∧
      alloc.gpuBoundRegion.offset = alloc.cpuRegion.offset ∧
      (alloc.gpuBoundRegion = alloc.cpuRegion ↔ size < cfg.blockStepSize)) ∧
    ∀ sb3 ti si, ((allocateTexture2D sb3 ti si).2).srvHeapPool = 0 := by
  have halloc : allocateConstantBuffer cfg bufferIndex sb size =
      some
        ({ sb with
            memoryPools := sb.memoryPools.set (size / cfg.blockStepSize)
              { blockSize :=
                  (sb.memoryPools.getD (size / cfg.blockStepSize) ⟨0, 0, 0⟩).blockSize
                descriptorCursor :=
                  (sb.memoryPools.getD (size / cfg.blockStepSize) ⟨0, 0, 0⟩).descriptorCursor + 1
                memoryCursor :=
                  (sb.memoryPools.getD (size / cfg.blockStepSize) ⟨0, 0, 0⟩).memoryCursor +
                    (sb.memoryPools.getD (size / cfg.blockStepSize) ⟨0, 0, 0⟩).blockSize } },
          { cpuRegion := ⟨size / cfg.blockStepSize,
              (sb.memoryPools.getD (size / cfg.blockStepSize) ⟨0, 0, 0⟩).memoryCursor⟩
            gpuBoundRegion := ⟨0,
              (sb.memoryPools.getD (size / cfg.blockStepSize) ⟨0, 0, 0⟩).memoryCursor⟩
            rootParameterIndex := bufferIndex }) := by
    unfold allocateConstantBuffer
    rw [if_pos hsize]
  constructor
  · refine ⟨_, _, halloc, rfl, rfl, rfl, ?_⟩
    constructor
    · intro he
      have hp : (0 : Nat) = size / cfg.blockStepSize := congrArg Region.pool he
      exact (Nat.div_eq_zero_iff hstep).mp hp.symm
    · intro hlt
      have hz : size / cfg.blockStepSize = 0 := (Nat.div_eq_zero_iff hstep).mpr hlt
      simp [hz]
  · intro sb3 ti si
    rfl

/-- Witness for C10 at a concrete configuration and size. -/
theorem C10_gpu_cpu_pool_mismatch_witness :
    (0 : Nat) < 256 ∧ (600 : Nat) < 1024 ∧
    ((∃ sb2 alloc,
        allocateConstantBuffer ⟨256, 1024⟩ 3 (scratchInit ⟨256, 1024⟩ 0) 600 = some (sb2, alloc) ∧
        alloc.gpuBoundRegion.pool = 0 ∧
        alloc.cpuRegion.pool = 600 / 256 ∧
        alloc.gpuBoundRegion.offset = alloc.cpuRegion.offset ∧
        (alloc.gpuBoundRegion = alloc.cpuRegion ↔ 600 < 256)) ∧
      ∀ sb3 ti si, ((allocateTexture2D sb3 ti si).2).srvHeapPool = 0) :=
  ⟨by decide, by decide,
    C10_gpu_cpu_pool_mismatch ⟨256, 1024⟩ (scratchInit ⟨256, 1024⟩ 0) 3 600
      (by decide) (by decide)⟩

/-- C5 counterexample: with step 256 and maximum 1024, a request of exactly
256 bytes is served from pool 1 (block size 512) although pool 0's block
size 256 already fits it, so the selected pool is not the smallest fitting
size class. -/
theorem C5_counterexample :
    (allocateConstantBuffer ⟨256, 1024⟩ 0 (scratchInit ⟨256, 1024⟩ 0) 256).map
        (fun r => r.2.cpuRegion.pool) = some 1 ∧
    smallestFittingPool ⟨256, 1024⟩ 256 = 0 ∧
    256 ≤ (((scratchInit ⟨256, 1024⟩ 0).memoryPools.getD 0 ⟨0, 0, 0⟩)).blockSize ∧
    (1 : Nat) ≠ 0 := by
  decide

/-- C5 (amended): AllocateConstantBuffer selects pool index size / step; it
returns the CPU pointer at that pool's current byte cursor and advances that
cursor by the pool's fixed block size, not by the requested size; the
selected pool always fits the request, and it is the smallest fitting size
class exactly when the size is not a positive exact multiple of the step —
for positive exact multiples the pool one above the smallest fitting class
is selected. -/
theorem C5_pool_selection_amended (cfg : ScratchConfig) (sb : ScratchBuffer)
    (bufferIndex size : Nat) (hstep : 0 < cfg.blockStepSize)
    (hsize : size < cfg.maxBlockSize)
    (hdvdmax : cfg.blockStepSize ∣ cfg.maxBlockSize)
    (hpools : sb.memoryPools.map MemoryPool.blockSize =
      (List.range (cfg.maxBlockSize / cfg.blockStepSize)).map
        fun i => (i + 1) * cfg.blockStepSize) :
    ∃ sb2 alloc, allocateConstantBuffer cfg bufferIndex sb size = some (sb2, alloc) ∧
      alloc.cpuRegion.pool = size / cfg.blockStepSize ∧
      alloc.cpuRegion.offset =
        (sb.memoryPools.getD (size / cfg.blockStepSize) ⟨0, 0, 0⟩).memoryCursor ∧
      (sb2.memoryPools.getD (size / cfg.blockStepSize) ⟨0, 0, 0⟩).memoryCursor =
        (sb.memoryPools.getD (size / cfg.blockStepSize) ⟨0, 0, 0⟩).memoryCursor +
          (sb.memoryPools.getD (size / cfg.blockStepSize) ⟨0, 0, 0⟩).blockSize ∧
      size ≤ (sb.memoryPools.getD (size / cfg.blockStepSize) ⟨0, 0, 0⟩).blockSize ∧
      (¬(0 < size ∧ cfg.blockStepSize ∣ size) →
        size / cfg.blockStepSize = smallestFittingPool cfg size) ∧
      ((0 < size ∧ cfg.blockStepSize ∣ size) →
        size / cfg.blockStepSize = smallestFittingPool cfg size + 1) := by
  have hidx : size / cfg.blockStepSize < cfg.maxBlockSize / cfg.blockStepSize :=
    Nat.div_lt_div_of_lt_of_dvd hdvdmax hsize
  have hlen : sb.memoryPools.length = cfg.maxBlockSize / cfg.blockStepSize := by
    simpa using congrArg List.length hpools
  have hinrange : size / cfg.blockStepSize < sb.memoryPools.length := by omega
  have hblock : (sb.memoryPools.getD (size / cfg.blockStepSize) ⟨0, 0, 0⟩).blockSize =
      (size / cfg.blockStepSize + 1) * cfg.blockStepSize :=
    blockSize_getD_of_map_eq hpools hidx
  have halloc : allocateConstantBuffer cfg bufferIndex sb size =
      some
        ({ sb with
            memoryPools := sb.memoryPools.set (size / cfg.blockStepSize)
              { blockSize :=
                  (sb.memoryPools.getD (size / cfg.blockStepSize) ⟨0, 0, 0⟩).blockSize
                descriptorCursor :=
                  (sb.memoryPools.getD (size / cfg.blockStepSize) ⟨0, 0, 0⟩).descriptorCursor + 1
                memoryCursor :=
                  (sb.memoryPools.getD (size / cfg.blockStepSize) ⟨0, 0, 0⟩).memoryCursor +
                    (sb.memoryPools.getD (size / cfg.blockStepSize) ⟨0, 0, 0⟩).blockSize } },
          { cpuRegion := ⟨size / cfg.blockStepSize,
              (sb.memoryPools.getD (size / cfg.blockStepSize) ⟨0, 0, 0⟩).memoryCursor⟩
            gpuBoundRegion := ⟨0,
              (sb.memoryPools.getD (size / cfg.blockStepSize) ⟨0, 0, 0⟩).memoryCursor⟩
            rootParameterIndex := bufferIndex }) := by
    unfold allocateConstantBuffer
    rw [if_pos hsize]
  refine ⟨_, _, halloc, rfl, rfl, ?_, ?_, ?_, ?_⟩
  · have hsetlen : size / cfg.blockStepSize <
        (sb.memoryPools.set (size / cfg.blockStepSize)
          ({ blockSize := (sb.memoryPools.getD (size / cfg.blockStepSize) ⟨0, 0, 0⟩).blockSize
             descriptorCursor :=
               (sb.memoryPools.getD (size / cfg.blockStepSize) ⟨0, 0, 0⟩).descriptorCursor + 1
             memoryCursor :=
               (sb.memoryPools.getD (size / cfg.blockStepSize) ⟨0, 0, 0⟩).memoryCursor +
                 (sb.memoryPools.getD (size / cfg.blockStepSize) ⟨0, 0, 0⟩).blockSize } :
            MemoryPool)).length := by
      simpa using hinrange
    rw [List.getD_eq_getElem?_getD, List.getElem?_eq_getElem hsetlen]
    simp
  · rw [hblock]
    exact size_le_succ_div_mul hstep
  · intro hnd
    exact div_eq_pred_div_of_not_dvd hstep hnd
  · intro hd
    exact div_eq_pred_div_succ_of_dvd hstep hd.1 hd.2

/-- Witness for the amended C5 at a concrete configuration. -/
theorem C5_pool_selection_amended_witness :
    (0 : Nat) < 256 ∧ (600 : Nat) < 1024 ∧ (256 : Nat) ∣ 1024 ∧
    ∃ sb2 alloc,
      allocateConstantBuffer ⟨256, 1024⟩ 0 (scratchInit ⟨256, 1024⟩ 0) 600 = some (sb2, alloc) ∧
      alloc.cpuRegion.pool = 600 / 256 ∧
      alloc.cpuRegion.offset =
        ((scratchInit ⟨256, 1024⟩ 0).memoryPools.getD (600 / 256) ⟨0, 0, 0⟩).memoryCursor ∧
      (sb2.memoryPools.getD (600 / 256) ⟨0, 0, 0⟩).memoryCursor =
        ((scratchInit ⟨256, 1024⟩ 0).memoryPools.getD (600 / 256) ⟨0, 0, 0⟩).memoryCursor +
          ((scratchInit ⟨256, 1024⟩ 0).memoryPools.getD (600 / 256) ⟨0, 0, 0⟩).blockSize ∧
      600 ≤ ((scratchInit ⟨256, 1024⟩ 0).memoryPools.getD (600 / 256) ⟨0, 0, 0⟩).blockSize ∧
      (¬(0 < 600 ∧ (256 : Nat) ∣ 600) →
        600 / 256 = smallestFittingPool ⟨256, 1024⟩ 600) ∧
      ((0 < 600 ∧ (256 : Nat) ∣ 600) →
        600 / 256 = smallestFittingPool ⟨256, 1024⟩ 600 + 1) :=
  ⟨by decide, by decide, by decide,
    C5_pool_selection_amended ⟨256, 1024⟩ (scratchInit ⟨256, 1024⟩ 0) 0 600
      (by decide) (by decide) (by decide) (by decide)⟩

/-- C8: Reset zeroes every pool's byte and descriptor cursor no matter how
many allocations preceded it, a reset allocator reached from a fresh one is
the fresh allocator itself, and an allocation of any size after Reset
returns exactly what the same allocation returns on a freshly initialized
allocator. -/
theorem C8_reset_idempotence (cfg : ScratchConfig) (fi : Nat)
    (acts : List ScratchAction) :
    (∀ sb : ScratchBuffer, ∀ p ∈ (scratchReset sb).memoryPools,
      p.memoryCursor = 0 ∧ p.descriptorCursor = 0) ∧
    scratchReset (scratchRun cfg (scratchInit cfg fi) acts) = scratchInit cfg fi ∧
    ∀ bufferIndex size,
      allocateConstantBuffer cfg bufferIndex
          (scratchReset (scratchRun cfg (scratchInit cfg fi) acts)) size =
        allocateConstantBuffer cfg bufferIndex (scratchInit cfg fi) size := by
  refine ⟨scratchReset_cursors, scratchReset_run_eq_init cfg fi acts, ?_⟩
  intro bufferIndex size
  rw [scratchReset_run_eq_init cfg fi acts]

/-- Witness for C8 at a concrete configuration and action sequence. -/
theorem C8_reset_idempotence_witness :
    (∀ sb : ScratchBuffer, ∀ p ∈ (scratchReset sb).memoryPools,
      p.memoryCursor = 0 ∧ p.descriptorCursor = 0) ∧
    scratchReset (scratchRun ⟨256, 1024⟩ (scratchInit ⟨256, 1024⟩ 1)
        [ScratchAction.constAlloc 0 100, ScratchAction.texAlloc 2 3,
          ScratchAction.constAlloc 1 600]) = scratchInit ⟨256, 1024⟩ 1 ∧
    ∀ bufferIndex size,
      allocateConstantBuffer ⟨256, 1024⟩ bufferIndex
          (scratchReset (scratchRun ⟨256, 1024⟩ (scratchInit ⟨256, 1024⟩ 1)
            [ScratchAction.constAlloc 0 100, ScratchAction.texAlloc 2 3,
              ScratchAction.constAlloc 1 600])) size =
        allocateConstantBuffer ⟨256, 1024⟩ bufferIndex (scratchInit ⟨256, 1024⟩ 1) size :=
  C8_reset_idempotence ⟨256, 1024⟩ 1
    [ScratchAction.constAlloc 0 100, ScratchAction.texAlloc 2 3,
      ScratchAction.constAlloc 1 600]

/-! Pipeline cache helpers. -/

/-- Appending entries on the right preserves successful lookups. -/
theorem cacheGet_append_some {c : List ((Nat × Nat × Nat) × Pipeline)}
    {k : Nat × Nat × Nat} {p : Pipeline} (h : cacheGet c k = some p)
    (l : List ((Nat × Nat × Nat) × Pipeline)) : cacheGet (c ++ l) k = some p := by
  induction c with
  | nil => simp [cacheGet] at h
  | cons hd tl ih =>
    by_cases he : hd.1 = k
    · simpa [cacheGet, he] using h
    · have h2 : cacheGet tl k = some p := by simpa [cacheGet, he] using h
      simpa [cacheGet, he] using ih h2

/-- Inserting a fresh key makes it found. -/
theorem cacheGet_none_append_self {c : List ((Nat × Nat × Nat) × Pipeline)}
    {k : Nat × Nat × Nat} (h : cacheGet c k = none) (p : Pipeline) :
    cacheGet (c ++ [(k, p)]) k = some p := by
  induction c with
  | nil => simp [cacheGet]
  | cons hd tl ih =>
    by_cases he : hd.1 = k
    · simp [cacheGet, he] at h
    · have h2 : cacheGet tl k = none := by simpa [cacheGet, he] using h
      simpa [cacheGet, he] using ih h2

/-- A missing key is not among the cache's keys. -/
theorem cacheGet_none_not_mem {c : List ((Nat × Nat × Nat) × Pipeline)}
    {k : Nat × Nat × Nat} (h : cacheGet c k = none) : k ∉ c.map Prod.fst := by
  induction c with
  | nil => simp
  | cons hd tl ih =>
    by_cases he : hd.1 = k
    · simp [cacheGet, he] at h
    · have h2 : cacheGet tl k = none := by simpa [cacheGet, he] using h
      simp only [List.map_cons, List.mem_cons]
      rintro (h3 | h3)
      · exact he h3.symm
      · exact ih h2 h3

/-- C3: looking the same (program identity, render-target identity,
fixed-function state) key up twice returns the same cached pipeline both
times, synthesizes at most once (exactly once when the key was absent), the
cache never loses an entry, and it keeps at most one compiled object per
distinct hash. -/
theorem C3_pipeline_cache_roundtrip (ctx : PipelineCacheContext)
    (rt : RenderTargetId)
    (hnodup : (ctx.pipelineCache.map Prod.fst).Nodup) :
    (getOrCreatePipeline (getOrCreatePipeline ctx rt).1 rt).2.1 =
      (getOrCreatePipeline ctx rt).2.1 ∧
    (getOrCreatePipeline (getOrCreatePipeline ctx rt).1 rt).2.2 = false ∧
    (cacheGet ctx.pipelineCache (pipelineHashInputs ctx rt) = none →
      (getOrCreatePipeline ctx rt).2.2 = true) ∧
    (∀ k p, cacheGet ctx.pipelineCache k = some p →
      cacheGet ((getOrCreatePipeline (getOrCreatePipeline ctx rt).1 rt).1).pipelineCache k =
        some p) ∧
    (((getOrCreatePipeline (getOrCreatePipeline ctx rt).1 rt).1).pipelineCache.map
      Prod.fst).Nodup := by
  cases h : cacheGet ctx.pipelineCache
      (ctx.pipelineState, rt.id, ctx.currentProgram.rootSignature) with
  | some p =>
    refine ⟨?_, ?_, ?_, ?_, ?_⟩ <;>
      simp [getOrCreatePipeline, pipelineHashInputs, h, hnodup]
  | none =>
    have hfound := cacheGet_none_append_self h (createPipeline ctx rt)
    have hnotmem := cacheGet_none_not_mem h
    refine ⟨?_, ?_, ?_, ?_, ?_⟩
    · simp [getOrCreatePipeline, pipelineHashInputs, h, hfound]
    · simp [getOrCreatePipeline, pipelineHashInputs, h, hfound]
    · intro _
      simp [getOrCreatePipeline, pipelineHashInputs, h]
    · intro k p hk
      simp [getOrCreatePipeline, pipelineHashInputs, h, hfound, cacheGet_append_some hk]
    · simp [getOrCreatePipeline, pipelineHashInputs, h, hfound, List.nodup_append,
        hnodup, hnotmem]

/-- Witness for C3 at a concrete context. -/
theorem C3_pipeline_cache_roundtrip_witness :
    ((([] : List ((Nat × Nat × Nat) × Pipeline)).map Prod.fst).Nodup) ∧
    ((getOrCreatePipeline
        (getOrCreatePipeline ⟨7, ⟨11, 12, 13⟩, [], []⟩ ⟨1, 2, 3⟩).1 ⟨1, 2, 3⟩).2.1 =
      (getOrCreatePipeline ⟨7, ⟨11, 12, 13⟩, [], []⟩ ⟨1, 2, 3⟩).2.1 ∧
    (getOrCreatePipeline
        (getOrCreatePipeline ⟨7, ⟨11, 12, 13⟩, [], []⟩ ⟨1, 2, 3⟩).1 ⟨1, 2, 3⟩).2.2 = false ∧
    (cacheGet ([] : List ((Nat × Nat × Nat) × Pipeline))
        (pipelineHashInputs ⟨7, ⟨11, 12, 13⟩, [], []⟩ ⟨1, 2, 3⟩) = none →
      (getOrCreatePipeline ⟨7, ⟨11, 12, 13⟩, [], []⟩ ⟨1, 2, 3⟩).2.2 = true) ∧
    (∀ k p, cacheGet ([] : List ((Nat × Nat × Nat) × Pipeline)) k = some p →
      cacheGet ((getOrCreatePipeline
          (getOrCreatePipeline ⟨7, ⟨11, 12, 13⟩, [], []⟩ ⟨1, 2, 3⟩).1 ⟨1, 2, 3⟩).1).pipelineCache
        k = some p) ∧
    (((getOrCreatePipeline
        (getOrCreatePipeline ⟨7, ⟨11, 12, 13⟩, [], []⟩ ⟨1, 2, 3⟩).1 ⟨1, 2, 3⟩).1).pipelineCache.map
      Prod.fst).Nodup) :=
  ⟨by decide, C3_pipeline_cache_roundtrip ⟨7, ⟨11, 12, 13⟩, [], []⟩ ⟨1, 2, 3⟩ (by decide)⟩

/-- The vertex declaration bound in context A for the C4 scenario: stride 16. -/
def ctxStrideA : PipelineCacheContext :=
  { pipelineState := 7
    currentProgram := ⟨11, 12, 13⟩
    currentVertexDeclarations := [some ⟨16, 0, 100, [⟨5, 0, 1, 0, 3, false⟩]⟩]
    pipelineCache := [] }

/-- The same context with the only vertex declaration changed to stride 32
(and the declaration's own pipeline hash changed accordingly). -/
def ctxStrideB : PipelineCacheContext :=
  { pipelineState := 7
    currentProgram := ⟨11, 12, 13⟩
    currentVertexDeclarations := [some ⟨32, 0, 200, [⟨5, 0, 1, 0, 3, false⟩]⟩]
    pipelineCache := [] }

/-- C4 counterexample: two lookups identical in program binding identity,
render-target identity and fixed-function state but with different
vertex-input strides compute the SAME content hash (the stride and
step-function hash updates are commented out in the source), so the second
lookup is a cache hit that reuses the previously compiled pipeline instead
of a miss. -/
theorem C4_counterexample :
    ctxStrideA.currentVertexDeclarations ≠ ctxStrideB.currentVertexDeclarations ∧
    pipelineHashInputs ctxStrideA ⟨1, 2, 3⟩ = pipelineHashInputs ctxStrideB ⟨1, 2, 3⟩ ∧
    (getOrCreatePipeline
        { ctxStrideB with
            pipelineCache := (getOrCreatePipeline ctxStrideA ⟨1, 2, 3⟩).1.pipelineCache }
        ⟨1, 2, 3⟩).2.2 = false ∧
    (getOrCreatePipeline
        { ctxStrideB with
            pipelineCache := (getOrCreatePipeline ctxStrideA ⟨1, 2, 3⟩).1.pipelineCache }
        ⟨1, 2, 3⟩).2.1 = (getOrCreatePipeline ctxStrideA ⟨1, 2, 3⟩).2.1 := by
  decide

/-- C4 (amended): the content hash is a function of the fixed-function
state, the render-target identity and the program's root signature only;
two lookups that agree on those but differ in the active vertex-input
stride or step-function compute the same hash, and the second lookup after
the first compiled is a cache hit that reuses the previously compiled
pipeline object. -/
theorem C4_stride_step_not_hashed (ctx1 ctx2 : PipelineCacheContext)
    (rt : RenderTargetId)
    (hps : ctx2.pipelineState = ctx1.pipelineState)
    (hprog : ctx2.currentProgram = ctx1.currentProgram) :
    pipelineHashInputs ctx2 rt = pipelineHashInputs ctx1 rt ∧
    (getOrCreatePipeline
        { ctx2 with pipelineCache := (getOrCreatePipeline ctx1 rt).1.pipelineCache }
        rt).2.2 = false ∧
    (getOrCreatePipeline
        { ctx2 with pipelineCache := (getOrCreatePipeline ctx1 rt).1.pipelineCache }
        rt).2.1 = (getOrCreatePipeline ctx1 rt).2.1 := by
  have hh : pipelineHashInputs ctx2 rt = pipelineHashInputs ctx1 rt := by
    simp [pipelineHashInputs, hps, hprog]
  refine ⟨hh, ?_, ?_⟩ <;>
  · cases h : cacheGet ctx1.pipelineCache
        (ctx1.pipelineState, rt.id, ctx1.currentProgram.rootSignature) with
    | some p =>
      simp [getOrCreatePipeline, pipelineHashInputs, h, hps, hprog]
    | none =>
      have hfound := cacheGet_none_append_self h (createPipeline ctx1 rt)
      simp [getOrCreatePipeline, pipelineHashInputs, h, hps, hprog, hfound]

/-- Witness for the amended C4 at the two concrete stride contexts. -/
theorem C4_stride_step_not_hashed_witness :
    ctxStrideB.pipelineState = ctxStrideA.pipelineState ∧
    ctxStrideB.currentProgram = ctxStrideA.currentProgram ∧
    (pipelineHashInputs ctxStrideB ⟨1, 2, 3⟩ = pipelineHashInputs ctxStrideA ⟨1, 2, 3⟩ ∧
    (getOrCreatePipeline
        { ctxStrideB with
            pipelineCache := (getOrCreatePipeline ctxStrideA ⟨1, 2, 3⟩).1.pipelineCache }
        ⟨1, 2, 3⟩).2.2 = false ∧
    (getOrCreatePipeline
        { ctxStrideB with
            pipelineCache := (getOrCreatePipeline ctxStrideA ⟨1, 2, 3⟩).1.pipelineCache }
        ⟨1, 2, 3⟩).2.1 = (getOrCreatePipeline ctxStrideA ⟨1, 2, 3⟩).2.1) :=
  ⟨by decide, by decide,
    C4_stride_step_not_hashed ctxStrideA ctxStrideB ⟨1, 2, 3⟩ (by decide) (by decide)⟩

/-! Resource-binding builder helpers and claims. -/

/-- Reading back the key just written into the merged table yields the
written entry. -/
theorem getBinding_setBinding_self (l : List ((Nat × Nat) × ProgramBinding))
    (k : Nat × Nat) (v : ProgramBinding) :
    getBinding (setBinding l k v) k = v := by
  induction l with
  | nil => simp [setBinding, getBinding]
  | cons hd tl ih =>
    obtain ⟨k2, v2⟩ := hd
    by_cases he : k2 = k
    · simp [setBinding, getBinding, he]
    · simp [setBinding, getBinding, he, ih]

/-- C7 (amended): the merged table keeps the entry created by the first
stage that claims a (set, binding) slot; a later stage whose resource list
also contains that slot changes nothing at all — in particular it does NOT
add its stage-visibility flag to the existing entry.  When the slot is
free, the claiming stage fills the entry from its resource and ors its own
stage flag in. -/
theorem C7_first_stage_wins (typeInfos : List TypeInfo) (ubo flag : Nat)
    (st : FillState) (res : ShaderResource) :
    ((res.set, res.binding) ∈ st.taken →
      fillResourceBinding typeInfos ubo flag st res = st) ∧
    ((res.set, res.binding) ∉ st.taken →
      (getBinding (fillResourceBinding typeInfos ubo flag st res).bindings
          (res.set, res.binding)).res = some res ∧
      (getBinding (fillResourceBinding typeInfos ubo flag st res).bindings
          (res.set, res.binding)).stageFlags =
        (getBinding st.bindings (res.set, res.binding)).stageFlags ||| flag ∧
      (res.set, res.binding) ∈ (fillResourceBinding typeInfos ubo flag st res).taken) := by
  constructor
  · intro hin
    simp [fillResourceBinding, hin]
  · intro hout
    cases hf : res.family <;>
      simp [fillResourceBinding, hout, hf, getBinding_setBinding_self]

/-- Witness for the amended C7: on a state where (0, 0) is already taken,
processing a fragment-stage resource at (0, 0) leaves the state untouched. -/
theorem C7_first_stage_wins_witness :
    fillResourceBinding [] 256 stageFlagFragment
        ⟨[(0, 0)], [], emptyBindingsInfo⟩
        ⟨9, 0, 0, BindingFamily.uniformBuffer, 16, true, 0⟩ =
      ⟨[(0, 0)], [], emptyBindingsInfo⟩ :=
  (C7_first_stage_wins [] 256 stageFlagFragment
      ⟨[(0, 0)], [], emptyBindingsInfo⟩
      ⟨9, 0, 0, BindingFamily.uniformBuffer, 16, true, 0⟩).1 (by decide)

/-- The vertex stage's reflection for the C7 scenario: one uniform buffer at
set 0, binding 0. -/
def vtxModuleC7 : ShaderModule :=
  { uniformBuffers := [⟨1, 0, 0, BindingFamily.uniformBuffer, 16, true, 0⟩]
    storageBuffers := []
    textures := []
    typeInfos := [⟨1⟩] }

/-- The fragment stage's reflection for the C7 scenario: its own uniform
buffer at the same set 0, binding 0. -/
def frgModuleC7 : ShaderModule :=
  { uniformBuffers := [⟨2, 0, 0, BindingFamily.uniformBuffer, 16, true, 0⟩]
    storageBuffers := []
    textures := []
    typeInfos := [⟨1⟩] }

/-- C7 counterexample: merging a vertex stage and a fragment stage that both
bind a resource at (set 0, binding 0) leaves the entry's stage flags equal
to the vertex flag alone — the fragment stage's visibility flag is NOT added
(the entry is identical to the one produced without any fragment module),
contradicting the claimed conflict policy. -/
theorem C7_counterexample :
    (getBinding (createProgramResourceBindings 256 (some vtxModuleC7)
        (some frgModuleC7) none).bindings (0, 0)).stageFlags = stageFlagVertex ∧
    getBinding (createProgramResourceBindings 256 (some vtxModuleC7)
        (some frgModuleC7) none).bindings (0, 0) =
      getBinding (createProgramResourceBindings 256 (some vtxModuleC7)
        none none).bindings (0, 0) ∧
    stageFlagVertex ||| stageFlagFragment ≠ stageFlagVertex := by
  decide

/-! Initialization error-handling helpers and claim. -/

/-- An initialization call sequence whose checked calls all returned S_OK
never stops, whatever the discarded results of its unchecked calls were. -/
theorem runInitCalls_none_of_ok (calls : List DeviceCall)
    (h : ∀ c ∈ calls, checkedOk c = true) : runInitCalls true calls = none := by
  induction calls with
  | nil => rfl
  | cons c tl ih =>
    have hc := h c (by simp)
    have htl : ∀ x ∈ tl, checkedOk x = true := fun x hx => h x (by simp [hx])
    cases c with
    | checked f l hr =>
      have hhr : hr = hrOk := by simpa [checkedOk] using hc
      simp [runInitCalls, checkHrError, hhr, ih htl]
    | unchecked l hr =>
      simp [runInitCalls, ih htl]

/-- Leading calls whose checked calls all returned S_OK do not stop the
sequence. -/
theorem runInitCalls_skips_ok (pre : List DeviceCall)
    (hpre : ∀ c ∈ pre, checkedOk c = true) (rest : List DeviceCall) :
    runInitCalls true (pre ++ rest) = runInitCalls true rest := by
  induction pre with
  | nil => rfl
  | cons c tl ih =>
    have hc := hpre c (by simp)
    have htl : ∀ x ∈ tl, checkedOk x = true := fun x hx => hpre x (by simp [hx])
    cases c with
    | checked f l hr =>
      have hhr : hr = hrOk := by simpa [checkedOk] using hc
      simp [runInitCalls, checkHrError, hhr, ih htl]
    | unchecked l hr =>
      simp [runInitCalls, ih htl]

/-- C9 counterexample: in the real DX12Initialize sequence the swap-chain
creation's HRESULT is discarded (line 367), so a failing swap-chain creation
— a failing device call during initialization, in verified-calls mode —
triggers no logged assertion at all: initialization runs to completion and
returns true, never aborting. -/
theorem C9_counterexample :
    DeviceCall.unchecked 367 1 ∈ dx12InitCallsSwapChainFail ∧
    (1 : Int) ≠ hrOk ∧
    dx12InitOutcome true dx12InitCallsSwapChainFail true = InitResult.returnedTrue ∧
    ∀ f l c, dx12InitOutcome true dx12InitCallsSwapChainFail true ≠
      InitResult.aborted f l c := by
  refine ⟨by decide, by decide, by decide, ?_⟩
  intro f l c
  have h3 : dx12InitOutcome true dx12InitCallsSwapChainFail true =
      InitResult.returnedTrue := by decide
  rw [h3]
  simp

/-- C9 (amended): every device/resource-creation call whose HRESULT is
captured is guarded by CHECK_HR_ERROR, so in verified-calls mode the first
failing checked result during initialization is logged with file and line
and triggers the assertion, aborting initialization rather than returning an
error code (or false) up the stack; device calls whose result is discarded
(the swap-chain creation at line 367, the silently null factory) never abort
initialization, however their results fail. -/
theorem C9_checked_failure_aborts (pre post : List DeviceCall) (f : String)
    (l : Nat) (hr : Int) (fenceEventOk : Bool) (hfail : hr ≠ hrOk)
    (hpre : ∀ c ∈ pre, checkedOk c = true) :
    checkHrError true f l hr = HrCheck.loggedAssert f l hr ∧
    dx12InitOutcome true (pre ++ DeviceCall.checked f l hr :: post) fenceEventOk =
      InitResult.aborted f l hr ∧
    (∀ calls : List DeviceCall, (∀ c ∈ calls, checkedOk c = true) →
      dx12InitOutcome true calls fenceEventOk =
        if fenceEventOk then InitResult.returnedTrue else InitResult.returnedFalse) ∧
    InitResult.aborted f l hr ≠ InitResult.returnedFalse ∧
    InitResult.aborted f l hr ≠ InitResult.returnedTrue := by
  have hchk : checkHrError true f l hr = HrCheck.loggedAssert f l hr := by
    simp [checkHrError, hfail]
  refine ⟨hchk, ?_, ?_, by simp, by simp⟩
  · have hrun : runInitCalls true (pre ++ DeviceCall.checked f l hr :: post) =
        some (f, l, hr) := by
      rw [runInitCalls_skips_ok pre hpre]
      simp [runInitCalls, hchk]
    simp [dx12InitOutcome, hrun]
  · intro calls hcalls
    simp [dx12InitOutcome, runInitCalls_none_of_ok calls hcalls]

/-- Witness for the amended C9: an unchecked failing swap-chain call in the
prefix does not stop the sequence, and the first failing checked call (the
sampler-heap creation) aborts with its file and line. -/
theorem C9_checked_failure_aborts_witness :
    ((1 : Int) ≠ hrOk) ∧
    (∀ c ∈ [DeviceCall.checked "graphics_dx12.cpp" 342 0, DeviceCall.unchecked 367 1],
      checkedOk c = true) ∧
    (checkHrError true "graphics_dx12.cpp" 378 1 =
        HrCheck.loggedAssert "graphics_dx12.cpp" 378 1 ∧
      dx12InitOutcome true
          ([DeviceCall.checked "graphics_dx12.cpp" 342 0, DeviceCall.unchecked 367 1] ++
            DeviceCall.checked "graphics_dx12.cpp" 378 1 :: []) true =
        InitResult.aborted "graphics_dx12.cpp" 378 1 ∧
      (∀ calls : List DeviceCall, (∀ c ∈ calls, checkedOk c = true) →
        dx12InitOutcome true calls true =
          if true then InitResult.returnedTrue else InitResult.returnedFalse) ∧
      InitResult.aborted "graphics_dx12.cpp" 378 1 ≠ InitResult.returnedFalse ∧
      InitResult.aborted "graphics_dx12.cpp" 378 1 ≠ InitResult.returnedTrue) :=
  ⟨by decide, by decide,
    C9_checked_failure_aborts
      [DeviceCall.checked "graphics_dx12.cpp" 342 0, DeviceCall.unchecked 367 1] []
      "graphics_dx12.cpp" 378 1 true (by decide) (by decide)⟩

/-! Frame synchronization claims. -/

/-- C1: when the fence's completed value has not reached the value recorded
at the slot's last use, BeginFrame waits first — on exactly that value —
then flushes the slot's destruction queue, then resets the slot's scratch
buffer, all before the first command of the new frame is recorded;
BeginFrame increments the slot's recorded fence value, Flip signals the
fence with exactly that incremented value, and the next BeginFrame for the
slot waits (first) on exactly that value; when the GPU already reached the
recorded value no wait happens at all. -/
theorem C1_frame_sync (completed fenceValue completed2 slot : Nat)
    (h : completed < fenceValue) (h2 : completed2 < fenceValue + 1) :
    eventPos (dx12BeginFrame completed fenceValue slot).1
        (FrameEvent.waitFence slot fenceValue) = 0 ∧
    eventPos (dx12BeginFrame completed fenceValue slot).1
        (FrameEvent.waitFence slot fenceValue) <
      eventPos (dx12BeginFrame completed fenceValue slot).1
        (FrameEvent.flushDestroyQueue slot) ∧
    eventPos (dx12BeginFrame completed fenceValue slot).1
        (FrameEvent.flushDestroyQueue slot) <
      eventPos (dx12BeginFrame completed fenceValue slot).1
        (FrameEvent.resetScratch slot) ∧
    eventPos (dx12BeginFrame completed fenceValue slot).1
        (FrameEvent.resetScratch slot) <
      eventPos (dx12BeginFrame completed fenceValue slot).1
        (FrameEvent.cmdSetDescriptorHeaps slot) ∧
    eventPos (dx12BeginFrame completed fenceValue slot).1
        (FrameEvent.cmdSetDescriptorHeaps slot) <
      eventPos (dx12BeginFrame completed fenceValue slot).1
        (FrameEvent.cmdBeginRenderPass slot) ∧
    (dx12BeginFrame completed fenceValue slot).2 = fenceValue + 1 ∧
    dx12Flip slot (dx12BeginFrame completed fenceValue slot).2 =
      [FrameEvent.executeCommandLists slot,
        FrameEvent.signalFence slot (fenceValue + 1), FrameEvent.present] ∧
    eventPos (dx12BeginFrame completed2 (fenceValue + 1) slot).1
        (FrameEvent.waitFence slot (fenceValue + 1)) = 0 ∧
    ∀ c, fenceValue ≤ c → ∀ v,
      FrameEvent.waitFence slot v ∉ (dx12BeginFrame c fenceValue slot).1 := by
  refine ⟨?_, ?_, ?_, ?_, ?_, ?_, ?_, ?_, ?_⟩
  · simp [dx12BeginFrame, syncronizeFrame, eventPos, h]
  · simp [dx12BeginFrame, syncronizeFrame, eventPos, h]
  · simp [dx12BeginFrame, syncronizeFrame, eventPos, h]
  · simp [dx12BeginFrame, syncronizeFrame, eventPos, h]
  · simp [dx12BeginFrame, syncronizeFrame, eventPos, h]
  · simp [dx12BeginFrame, syncronizeFrame, h]
  · simp [dx12BeginFrame, syncronizeFrame, dx12Flip, h]
  · simp [dx12BeginFrame, syncronizeFrame, eventPos, h2]
  · intro c hc v
    simp [dx12BeginFrame, syncronizeFrame, Nat.not_lt.mpr hc]

/-- Witness for C1 at concrete fence values. -/
theorem C1_frame_sync_witness :
    (0 : Nat) < 5 ∧ (3 : Nat) < 5 + 1 ∧
    (eventPos (dx12BeginFrame 0 5 2).1 (FrameEvent.waitFence 2 5) = 0 ∧
      eventPos (dx12BeginFrame 0 5 2).1 (FrameEvent.waitFence 2 5) <
        eventPos (dx12BeginFrame 0 5 2).1 (FrameEvent.flushDestroyQueue 2) ∧
      eventPos (dx12BeginFrame 0 5 2).1 (FrameEvent.flushDestroyQueue 2) <
        eventPos (dx12BeginFrame 0 5 2).1 (FrameEvent.resetScratch 2) ∧
      eventPos (dx12BeginFrame 0 5 2).1 (FrameEvent.resetScratch 2) <
        eventPos (dx12BeginFrame 0 5 2).1 (FrameEvent.cmdSetDescriptorHeaps 2) ∧
      eventPos (dx12BeginFrame 0 5 2).1 (FrameEvent.cmdSetDescriptorHeaps 2) <
        eventPos (dx12BeginFrame 0 5 2).1 (FrameEvent.cmdBeginRenderPass 2) ∧
      (dx12BeginFrame 0 5 2).2 = 5 + 1 ∧
      dx12Flip 2 (dx12BeginFrame 0 5 2).2 =
        [FrameEvent.executeCommandLists 2, FrameEvent.signalFence 2 (5 + 1),
          FrameEvent.present] ∧
      eventPos (dx12BeginFrame 3 (5 + 1) 2).1 (FrameEvent.waitFence 2 (5 + 1)) = 0 ∧
      ∀ c, 5 ≤ c → ∀ v, FrameEvent.waitFence 2 v ∉ (dx12BeginFrame c 5 2).1) :=
  ⟨by decide, by decide, C1_frame_sync 0 5 3 2 (by decide) (by decide)⟩

/-- C2: retiring a live resource pushes its handle exactly once and marks
the logical resource destroyed with a nulled handle; retiring an
already-retired resource or a null resource pushes nothing; Flush releases
every queued handle exactly once and leaves the queue empty; and within
BeginFrame the slot's fence wait strictly precedes the flush of its
destruction queue. -/
theorem C2_deferred_destruction (queue : List Nat) (h : Nat) (d : Bool)
    (completed fenceValue slot : Nat) (hwait : completed < fenceValue) :
    destroyResourceDeferred queue (some ⟨some h, d⟩) =
      (queue ++ [h], some ⟨none, true⟩) ∧
    (queue ++ [h]).count h = queue.count h + 1 ∧
    destroyResourceDeferred queue (some ⟨none, d⟩) = (queue, some ⟨none, d⟩) ∧
    destroyResourceDeferred queue none = (queue, none) ∧
    (flushResourcesToDestroy queue).1 = queue ∧
    (flushResourcesToDestroy queue).2 = [] ∧
    (∀ x, ((flushResourcesToDestroy queue).1).count x = queue.count x) ∧
    eventPos (dx12BeginFrame completed fenceValue slot).1
        (FrameEvent.waitFence slot fenceValue) <
      eventPos (dx12BeginFrame completed fenceValue slot).1
        (FrameEvent.flushDestroyQueue slot) := by
  refine ⟨rfl, ?_, rfl, rfl, rfl, rfl, fun x => rfl, ?_⟩
  · simp
  · simp [dx12BeginFrame, syncronizeFrame, eventPos, hwait]

/-- Witness for C2 at a concrete queue and fence state. -/
theorem C2_deferred_destruction_witness :
    (0 : Nat) < 1 ∧
    (destroyResourceDeferred [5] (some ⟨some 9, false⟩) =
        ([5] ++ [9], some ⟨none, true⟩) ∧
      ([5] ++ [9]).count 9 = [5].count 9 + 1 ∧
      destroyResourceDeferred [5] (some ⟨none, false⟩) = ([5], some ⟨none, false⟩) ∧
      destroyResourceDeferred [5] none = ([5], none) ∧
      (flushResourcesToDestroy [5]).1 = [5] ∧
      (flushResourcesToDestroy [5]).2 = [] ∧
      (∀ x, ((flushResourcesToDestroy [5]).1).count x = [5].count x) ∧
      eventPos (dx12BeginFrame 0 1 0).1 (FrameEvent.waitFence 0 1) <
        eventPos (dx12BeginFrame 0 1 0).1 (FrameEvent.flushDestroyQueue 0)) :=
  ⟨by decide, C2_deferred_destruction [5] 9 false 0 1 0 (by decide)⟩
